import Mathlib

/-!
Shallow embedding of the TTTaxis dispatch-bot backend (a Node.js/Express
service whose repository holds several iterations of the same server) and
proofs about its pricing, booking, driver-assignment and payment-webhook
code.  Each embedded definition is translated from one concrete source
function; the source file and function are named in its doc comment.
Network calls (geocoding, routing, Square, SendGrid) are modelled as
explicit oracle parameters; JavaScript float arithmetic is modelled by
exact rationals, and `toFixed(2)` / `Math.round(x*100)/100` by round-half-up
to two decimals.
-/

namespace TTTaxis

/-! ### JavaScript string and number primitives

Kernel-executable replacements for the JS string operations used by the
sources (`toLowerCase`, `includes`, `startsWith`, `split`) and for the JS
rounding idioms. -/

/-- ASCII lower-casing of one character, as `String.prototype.toLowerCase`
acts on the ASCII inputs used by the pricing tables. -/
def jsToLowerChar (c : Char) : Char :=
  if 65 ≤ c.toNat ∧ c.toNat ≤ 90 then Char.ofNat (c.toNat + 32) else c

/-- Model of `s.toLowerCase()`, producing the character list. -/
def jsToLower (s : String) : List Char := s.data.map jsToLowerChar

/-- Test whether the second list begins the first argument list; helper for
the substring test below. -/
def charsBegin : List Char → List Char → Bool
  | [], _ => true
  | _ :: _, [] => false
  | a :: as, b :: bs => a == b && charsBegin as bs

/-- Test whether `pat` occurs as a contiguous run inside `hay`; model of
`hay.includes(pat)` in JS. -/
def charsContain (pat : List Char) : List Char → Bool
  | [] => charsBegin pat []
  | c :: rest => charsBegin pat (c :: rest) || charsContain pat rest

/-- Model of `s.startsWith(pat)`. -/
def jsStartsWith (s pat : String) : Bool := charsBegin pat.data s.data

/-- Model of `s.split(sep)` for a one-character separator. -/
def splitOnChar (sep : Char) : List Char → List (List Char)
  | [] => [[]]
  | c :: rest =>
    match splitOnChar sep rest with
    | [] => [[]]
    | h :: t => if c == sep then [] :: h :: t else (c :: h) :: t

/-- JS truthiness of an optional string (`undefined`, `null` and `""` are
falsy). -/
def jsTruthy : Option String → Bool
  | none => false
  | some s => !(s = "")

/-- Round-half-up to two decimal places; exact-arithmetic model of the JS
idioms `Number(x.toFixed(2))` and `Math.round(x * 100) / 100` applied to
the positive amounts occurring here. -/
def round2 (q : ℚ) : ℚ := (⌊q * 100 + 1/2⌋ : ℤ) / 100

/-! ### Shared pricing configuration

`src/unnamed/part_003`, `part_010`, `part_006` and `part_002` all declare
the same constants `VAT_RATE = 0.2`, `MIN_FARE = 4.2`,
`LOCAL_PER_MILE = 2.2` and the same `FIXED_AIRPORT_FARES` table, so they
are embedded once. -/

def VAT_RATE : ℚ := 0.2

def MIN_FARE : ℚ := 4.2

def LOCAL_PER_MILE : ℚ := 2.2

/-- One row of the `FIXED_AIRPORT_FARES` table; the source field `match`
is a Lean keyword and is renamed `pat`. -/
structure FareRule where
  pat : String
  price : ℚ
deriving DecidableEq

/-- The `FIXED_AIRPORT_FARES` table of `part_003` / `part_010`. -/
def FIXED_AIRPORT_FARES : List FareRule :=
  [⟨"manchester", 120⟩, ⟨"liverpool", 132⟩, ⟨"leeds", 98⟩]

/-- Outcome of a distance resolution; `geocodeFailed` models the
`throw new Error("Geocode failed ...")` in `geocodeUK`, which each
`/quote` route surfaces as its 422 error response. -/
inductive GeoFail
  | geocodeFailed
deriving DecidableEq

/-- External world consumed by `calculateMiles`: the Nominatim geocoder
(address to (lat, lon), `none` models an empty result list, which the
source turns into a throw) and the ORS routing call ((from, to) to miles,
`none` models a thrown request or a missing distance field). -/
structure GeoWorld where
  geocode : String → Option (ℚ × ℚ)
  route : ℚ × ℚ → ℚ × ℚ → Option ℚ

/-- The transcendental functions of JS `Math` used by `haversineMiles`,
passed explicitly so that the embedding stays executable; `atan2` here is
only ever applied with a non-negative second argument, as in the source. -/
structure JsMath where
  sin : ℚ → ℚ
  cos : ℚ → ℚ
  sqrt : ℚ → ℚ
  atan2 : ℚ → ℚ → ℚ
  pi : ℚ

/-- Result row of a `/quote` computation: `fixed` flag, `miles` (null on
the fixed path) and the GBP price. -/
structure QuoteRes where
  fixed : Bool
  miles : Option ℚ
  price : ℚ
deriving DecidableEq

namespace Part003

/-- `haversineMiles` of `src/unnamed/part_003` (also `part_010`,
`part_006`): great-circle distance in miles, radius 3958.8. -/
def haversineMiles (M : JsMath) (lat1 lon1 lat2 lon2 : ℚ) : ℚ :=
  let R : ℚ := 3958.8
  let dLat := (lat2 - lat1) * M.pi / 180
  let dLon := (lon2 - lon1) * M.pi / 180
  let a := M.sin (dLat / 2) ^ 2 +
    M.cos (lat1 * M.pi / 180) * M.cos (lat2 * M.pi / 180) * M.sin (dLon / 2) ^ 2
  R * (2 * M.atan2 (M.sqrt a) (M.sqrt (1 - a)))

/-- `calculateMiles` of `src/unnamed/part_003` lines 128-143: geocode both
addresses (a failure propagates), try ORS routing, accept a finite
positive mileage, and otherwise fall back to straight-line distance
inflated by 1.25. -/
def calculateMiles (M : JsMath) (w : GeoWorld) (pickup dropoff : String) :
    Except GeoFail ℚ :=
  match w.geocode pickup with
  | none => .error .geocodeFailed
  | some f =>
    match w.geocode dropoff with
    | none => .error .geocodeFailed
    | some t =>
      match w.route f t with
      | some m =>
        if 0 < m then .ok m else .ok (haversineMiles M f.1 f.2 t.1 t.2 * 1.25)
      | none => .ok (haversineMiles M f.1 f.2 t.1 t.2 * 1.25)

/-- The metered base fare `Math.max(MIN_FARE, miles * LOCAL_PER_MILE)` of
the `/quote` route of `part_003`. -/
def localBase (miles : ℚ) : ℚ := max MIN_FARE (miles * LOCAL_PER_MILE)

/-- Response of the `/quote` route of `part_003`: 400 on missing
locations, 422 when `calculateMiles` throws, otherwise the priced JSON. -/
inductive QuoteOut
  | missingLocations
  | unableToCalculate
  | priced (r : QuoteRes)
deriving DecidableEq

/-- The `/quote` route of `src/unnamed/part_003` lines 155-200: missing
locations give 400; a fixed-airport substring match on either lowercased
address returns the fixed fare with VAT and null miles; otherwise the
metered price is `round2(base * (1 + VAT_RATE))`. -/
def quoteRoute (M : JsMath) (w : GeoWorld) (pickup dropoff : Option String) :
    QuoteOut :=
  if jsTruthy pickup && jsTruthy dropoff then
    let pv := pickup.getD ""
    let dv := dropoff.getD ""
    let p := jsToLower pv
    let d := jsToLower dv
    match FIXED_AIRPORT_FARES.find?
        (fun r => charsContain r.pat.data p || charsContain r.pat.data d) with
    | some r => .priced ⟨true, none, round2 (r.price * (1 + VAT_RATE))⟩
    | none =>
      match calculateMiles M w pv dv with
      | .error _ => .unableToCalculate
      | .ok miles =>
        .priced ⟨false, some (round2 miles), round2 (localBase miles * (1 + VAT_RATE))⟩
  else .missingLocations

/-- Booking record built by the `/book` route of `part_003`. -/
structure Booking where
  id : String
  pickup : Option String
  dropoff : Option String
  name : Option String
  phone : Option String
  email : Option String
  price_gbp_inc_vat : ℚ
  created_at : String
deriving DecidableEq

/-- Response of the `/book` route of `part_003`. -/
inductive BookOut
  | badRequest
  | success (b : Booking) (emailedTo : List String)
deriving DecidableEq

/-- The `/book` route of `src/unnamed/part_003` lines 205-250: require
truthy pickup, dropoff, name, phone and a numeric price (modelled as
`Option ℚ`, `none` for a missing or non-number field), then create the
booking with the client-submitted price and send at most one confirmation
email.  `newId` stands for `crypto.randomUUID()` and `now` for
`new Date().toISOString()`. -/
def book (sgConfigured : Bool) (newId now : String)
    (pickup dropoff name phone email : Option String) (price : Option ℚ) :
    BookOut :=
  match price with
  | none => .badRequest
  | some pr =>
    if jsTruthy pickup && jsTruthy dropoff && jsTruthy name && jsTruthy phone then
      let booking : Booking :=
        ⟨newId, pickup, dropoff, name, phone,
          (if jsTruthy email then email else none), pr, now⟩
      .success booking
        (match email with
         | some e => if !(e = "") && sgConfigured then [e] else []
         | none => [])
    else .badRequest

end Part003

namespace Part007

/-- `calculateMiles` of `src/unnamed/part_007` lines 116-135 (the same
code appears in `part_002` lines 263-283 and `part_011`): geocode both
addresses, try ORS routing, and on any routing failure return the
hard-coded safe fallback of 10 miles. -/
def calculateMiles (w : GeoWorld) (pickup dropoff : String) :
    Except GeoFail ℚ :=
  match w.geocode pickup with
  | none => .error .geocodeFailed
  | some f =>
    match w.geocode dropoff with
    | none => .error .geocodeFailed
    | some t =>
      match w.route f t with
      | some m => .ok m
      | none => .ok 10

end Part007

namespace Part010

/-- `calculatePrice` of `src/unnamed/part_010` lines 119-141 (identical in
`part_006` for the kendal area): fixed-airport substring match on either
lowercased address short-circuits to the fixed fare with VAT and null
miles; otherwise `calculateMiles` (abstracted as `resolveMiles`, the
awaited call) prices the metered fare. -/
def calculatePrice (resolveMiles : String → String → Except GeoFail ℚ)
    (pickup dropoff : String) : Except GeoFail QuoteRes :=
  let p := jsToLower pickup
  let d := jsToLower dropoff
  match FIXED_AIRPORT_FARES.find?
      (fun r => charsContain r.pat.data p || charsContain r.pat.data d) with
  | some r => .ok ⟨true, none, round2 (r.price * (1 + VAT_RATE))⟩
  | none =>
    match resolveMiles pickup dropoff with
    | .error e => .error e
    | .ok miles =>
      .ok ⟨false, some (round2 miles),
        round2 (max MIN_FARE (miles * LOCAL_PER_MILE) * (1 + VAT_RATE))⟩

end Part010

namespace Part009b

/-- Rounding to one decimal, `Math.round(x * 10) / 10`, used for the miles
field of the `part_009` quote response. -/
def round1 (q : ℚ) : ℚ := (⌊q * 10 + 1/2⌋ : ℤ) / 10

/-- `NIGHT_MULTIPLIER = 1.5` of the second document in
`src/unnamed/part_009` (the nodemailer variant). -/
def NIGHT_MULTIPLIER : ℚ := 1.5

/-- `NIGHT_START_HOUR = 23` of the same variant. -/
def NIGHT_START_HOUR : ℕ := 23

/-- One row of `FIXED_ROUTE_FARES`; the source fields `from` and `to` are
Lean keywords and are renamed `fromLoc` / `toLoc`. -/
structure RouteFare where
  fromLoc : String
  toLoc : String
  price : ℚ
deriving DecidableEq

/-- The `FIXED_ROUTE_FARES` table (fixed airport routes, no night
uplift) of `src/unnamed/part_009` lines 394-401. -/
def FIXED_ROUTE_FARES : List RouteFare :=
  [⟨"Lancaster", "Manchester Airport", 90⟩,
   ⟨"Kendal", "Manchester Airport", 120⟩,
   ⟨"Kendal", "Leeds Bradford Airport", 98⟩,
   ⟨"Lancaster", "Leeds Bradford Airport", 111⟩,
   ⟨"Kendal", "Liverpool John Lennon Airport", 132⟩,
   ⟨"Lancaster", "Liverpool John Lennon Airport", 102⟩]

/-- `getFixedRouteFare` of `src/unnamed/part_009` lines 403-419:
case-folded substring match of each route row against the two addresses,
in either direction of travel. -/
def getFixedRouteFare (pickup dropoff : String) : Option ℚ :=
  let p := jsToLower pickup
  let d := jsToLower dropoff
  (FIXED_ROUTE_FARES.find? (fun r =>
    let f := jsToLower r.fromLoc
    let t := jsToLower r.toLoc
    (charsContain f p && charsContain t d) ||
    (charsContain t p && charsContain f d))).map (fun r => r.price)

/-- `calculateLocalFare` of `src/unnamed/part_009` lines 451-462.  The
`hour` argument abstracts `new Date(pickup_time_iso).getHours()` for a
truthy ISO string; `none` models a falsy `pickup_time_iso` (an invalid
date string, whose NaN hour also fails the comparison, behaves the
same as `none`). -/
def calculateLocalFare (miles : ℚ) (hour : Option ℕ) : ℚ :=
  let price := max MIN_FARE (miles * LOCAL_PER_MILE)
  let price :=
    match hour with
    | some h => if NIGHT_START_HOUR ≤ h then price * NIGHT_MULTIPLIER else price
    | none => price
  round2 price

/-- `getMiles` of `src/unnamed/part_009` lines 424-446: geocode both
addresses with Nominatim and route with OSRM; both failures throw (no
10-mile or haversine fallback in this variant). -/
def getMiles (w : GeoWorld) (pickup dropoff : String) : Except GeoFail ℚ :=
  match w.geocode pickup with
  | none => .error .geocodeFailed
  | some f =>
    match w.geocode dropoff with
    | none => .error .geocodeFailed
    | some t =>
      match w.route f t with
      | some m => .ok m
      | none => .error .geocodeFailed

/-- Response of the `/quote` route of the `part_009` variant. -/
inductive Q9Out
  | missingLocations
  | failed
  | fixedFare (price : ℚ)
  | metered (miles price : ℚ)
deriving DecidableEq

/-- The `/quote` route of `src/unnamed/part_009` lines 467-492: fixed
route fares take priority and ignore the pickup time entirely; otherwise
the metered fare with the night multiplier is returned. -/
def quoteRoute (w : GeoWorld) (pickup dropoff : Option String)
    (hour : Option ℕ) : Q9Out :=
  if jsTruthy pickup && jsTruthy dropoff then
    let pv := pickup.getD ""
    let dv := dropoff.getD ""
    match getFixedRouteFare pv dv with
    | some f => .fixedFare f
    | none =>
      match getMiles w pv dv with
      | .error _ => .failed
      | .ok m => .metered (round1 m) (calculateLocalFare m hour)
  else .missingLocations

end Part009b

namespace ServerJs

/-- A row of the `bookings` table of `src/server.js` (first document,
Postgres variant), restricted to the columns the webhook reads or
writes. -/
structure Booking where
  booking_ref : String
  customer_name : String
  customer_email : String
  customer_phone : String
  pickup : String
  dropoff : String
  pickup_time : String
  additional_info : String
  payment_type : String
  amount_paid : Option ℚ
  payment_status : String
  status : String
deriving DecidableEq

/-- The `bookings` table, keyed by the unique `booking_ref`. -/
def Bookings : Type := String → Option Booking

/-- The fields of a parsed Square webhook event that the handler reads:
`event.type`, `payment.status`, `payment.note` and
`payment.amount_money.amount` (integer minor units). -/
structure Event where
  type : String
  paymentStatus : String
  note : String
  amount : ℤ

/-- Result of one webhook delivery: the table afterwards, the HTTP status,
the `sendBookingEmails` batches sent (booking reference and amount paid),
and the number of TaxiCaller dispatch attempts. -/
structure WebhookRes where
  state : Bookings
  resp : ℕ
  emails : List (String × ℚ)
  dispatchCalls : ℕ

/-- The booking-reference extraction of the `src/server.js` webhook,
lines 328-332: find the note line starting with `BookingRef:`, split it on
`:` and take index 1; a missing line, missing index or empty value is
falsy and aborts processing. -/
def parseBookingRef (note : String) : Option String :=
  match (splitOnChar '\n' note.data).find?
      (fun l => charsBegin "BookingRef:".data l) with
  | none => none
  | some line =>
    match (splitOnChar ':' line)[1]? with
    | none => none
    | some v => if v = [] then none else some ⟨v⟩

/-- The `/square/webhook` route of `src/server.js` lines 320-384.  `cfg`
is `taxiCallerConfigured()`; `dispatchOk` tells whether the awaited
`dispatchToTaxiCaller` call succeeds (its failure is caught and only
logged).  Email delivery is modelled as succeeding; the route answers 200
at the end of the happy path and on every early exit. -/
def squareWebhook (cfg dispatchOk : Bool) (st : Bookings) (ev : Event) :
    WebhookRes :=
  if !(jsStartsWith ev.type "payment.") then ⟨st, 200, [], 0⟩
  else if !(ev.paymentStatus = "COMPLETED") then ⟨st, 200, [], 0⟩
  else
    match parseBookingRef ev.note with
    | none => ⟨st, 200, [], 0⟩
    | some ref =>
      match st ref with
      | none => ⟨st, 200, [], 0⟩
      | some booking =>
        let paid : ℚ := (ev.amount : ℚ) / 100
        let st₁ : Bookings := fun r =>
          if r = ref then
            some { booking with payment_status := "paid", amount_paid := some paid }
          else st r
        let emails := [(booking.booking_ref, paid)]
        if cfg then
          if dispatchOk then
            let st₂ : Bookings := fun r =>
              if r = booking.booking_ref then
                (st₁ r).map (fun b => { b with status := "dispatched" })
              else st₁ r
            ⟨st₂, 200, emails, 1⟩
          else ⟨st₁, 200, emails, 1⟩
        else ⟨st₁, 200, emails, 0⟩

/-- The raw inbound request to `/square/webhook`: the exact raw body bytes
and the Square signature header.  The `server.js` route reads only the
body. -/
structure RawReq where
  rawBody : String
  signature : Option String

/-- The full `/square/webhook` route of `src/server.js` including body
parsing: `JSON.parse` (abstracted as `parse`) throwing lands in the catch
block (HTTP 500); the signature header is never consulted. -/
def squareWebhookRaw (cfg dispatchOk : Bool) (parse : String → Option Event)
    (st : Bookings) (req : RawReq) : WebhookRes :=
  match parse req.rawBody with
  | none => ⟨st, 500, [], 0⟩
  | some ev => squareWebhook cfg dispatchOk st ev

end ServerJs

namespace SqliteBot

/-- A row of the SQLite `bookings` table of the second document in
`src/server.js` (the dispatch-bot variant), restricted to the columns that
driver assignment touches, plus the time fields that determine the
booking's reserved window.  `pickupTime` holds the booking's
`pickup_time_iso` as minutes on a common clock and `durationMinutes` its
`duration_minutes` column. -/
structure BookingRow where
  booking_id : String
  status : String
  pickupTime : ℤ
  durationMinutes : ℤ
deriving DecidableEq

/-- A row of the `assignments` table (`booking_id` primary key). -/
structure AssignmentRow where
  driver_id : String
  assigned_at_iso : String
deriving DecidableEq

/-- The SQLite database of the dispatch-bot variant: bookings keyed by
`booking_id`, the existence predicate of the `drivers` table, and
assignments keyed by `booking_id`. -/
structure Db where
  bookings : String → Option BookingRow
  drivers : String → Bool
  assignments : String → Option AssignmentRow

/-- The `POST /admin/assign-driver` route of `src/server.js` lines
955-974: 400 when either id is falsy, 404 when the booking or the driver
row does not exist, otherwise upsert the assignment (the
`ON CONFLICT(booking_id) DO UPDATE` clause) and set the booking status to
`DRIVER_ASSIGNED`. -/
def assignDriver (db : Db) (booking_id driver_id : Option String)
    (now : String) : Db × ℕ :=
  if jsTruthy booking_id && jsTruthy driver_id then
    let bid := booking_id.getD ""
    let did := driver_id.getD ""
    match db.bookings bid with
    | none => (db, 404)
    | some _ =>
      if db.drivers did then
        ({ bookings := fun r =>
             if r = bid then
               (db.bookings r).map (fun b => { b with status := "DRIVER_ASSIGNED" })
             else db.bookings r,
           drivers := db.drivers,
           assignments := fun r =>
             if r = bid then some ⟨did, now⟩ else db.assignments r }, 200)
      else (db, 404)
  else (db, 400)

/-- Modelled from the spec: the reserved half-open window
`[start_ts, end_ts)` of a booking, `start_ts = pickup_time` and
`end_ts = pickup_time + duration_minutes` (spec section 4.3 step 1); the
code itself never derives a window. -/
def window (b : BookingRow) : ℤ × ℤ :=
  (b.pickupTime, b.pickupTime + b.durationMinutes)

/-- Modelled from the spec: the interval intersection test
`existing.start < new.end AND existing.end > new.start` of spec section
4.3 step 2. -/
def overlaps (w₁ w₂ : ℤ × ℤ) : Prop := w₁.1 < w₂.2 ∧ w₂.1 < w₁.2

instance (w₁ w₂ : ℤ × ℤ) : Decidable (overlaps w₁ w₂) := by
  unfold overlaps; infer_instance

end SqliteBot

namespace Part002

/-- A row of the Postgres `bookings` table of the second document in
`src/unnamed/part_002` (the area-config variant), restricted to the key
and the two columns `markBookingPaid` writes. -/
structure BookingRow where
  id : String
  status : String
  amount_paid : Option ℚ
deriving DecidableEq

/-- The bookings table of the `part_002` variant, keyed by `id`. -/
def Db : Type := String → Option BookingRow

/-- `verifySquareSignature` of `src/unnamed/part_002` lines 419-426:
base64 HMAC-SHA1 of the exact raw body under the configured key, compared
with the signature header.  The HMAC primitive of node `crypto` is passed
in as `hmacSha1 key message`. -/
def verifySquareSignature (hmacSha1 : String → String → String)
    (key rawBody signature : String) : Bool :=
  hmacSha1 key rawBody == signature

/-- `markBookingPaid` of `src/unnamed/part_002` lines 369-380: set
`status = paid` and record the amount; an UPDATE of an absent id changes
nothing. -/
def markBookingPaid (db : Db) (id : String) (amount : ℚ) : Db :=
  fun r =>
    if r = id then
      (db r).map (fun b => { b with status := "paid", amount_paid := some amount })
    else db r

/-- The parsed fields of a Square event that the `part_002` webhook
reads: `event.type`, `payment.status`, `payment.note` (the booking
reference), `payment.amount_money.amount` and
`payment.buyer_email_address`. -/
structure Event where
  type : String
  paymentStatus : String
  note : String
  amount : ℤ
  buyer_email : Option String

/-- Result of one `part_002` webhook delivery: table, HTTP status, and
the recipients emailed. -/
structure WebhookRes where
  state : Db
  resp : ℕ
  emails : List String

/-- The `/square/webhook` route of `src/unnamed/part_002` lines 529-568:
first verify the HMAC signature over the exact raw body (a missing or
mismatched signature answers 401 and nothing else runs), then parse
(`JSON.parse` throwing lands in the catch block, HTTP 500), ignore
non-`payment.updated` and non-COMPLETED events, and finally mark the
booking paid and send the confirmation emails when a buyer email is
present. -/
def squareWebhook (hmacSha1 : String → String → String)
    (parse : String → Option Event) (key : String) (st : Db)
    (rawBody : String) (signature : Option String) : WebhookRes :=
  match signature with
  | none => ⟨st, 401, []⟩
  | some sig =>
    if !(verifySquareSignature hmacSha1 key rawBody sig) then ⟨st, 401, []⟩
    else
      match parse rawBody with
      | none => ⟨st, 500, []⟩
      | some ev =>
        if !(ev.type = "payment.updated") then ⟨st, 200, []⟩
        else if !(ev.paymentStatus = "COMPLETED") then ⟨st, 200, []⟩
        else
          let amountPaid : ℚ := (ev.amount : ℚ) / 100
          let st₁ := markBookingPaid st ev.note amountPaid
          ⟨st₁, 200,
            if jsTruthy ev.buyer_email then [ev.buyer_email.getD ""] else []⟩

end Part002

/-! ### Helper lemmas and concrete fixtures -/

/-- Rounding to pence overshoots its argument by at most half a penny. -/
theorem round2_le (q : ℚ) : round2 q ≤ q + 1/200 := by
  unfold round2
  rw [div_le_iff₀ (by norm_num : (0:ℚ) < 100)]
  have h := Int.floor_le (q * 100 + 1/2)
  linarith

/-- Rounding to pence undershoots its argument by less than half a penny. -/
theorem lt_round2 (q : ℚ) : q - 1/200 < round2 q := by
  unfold round2
  rw [lt_div_iff₀ (by norm_num : (0:ℚ) < 100)]
  have h := Int.lt_floor_add_one (q * 100 + 1/2)
  linarith

/-- Amounts at least a penny apart stay apart after rounding to pence. -/
theorem round2_lt_round2 {a b : ℚ} (hab : a + 1/100 ≤ b) :
    round2 a < round2 b := by
  have h₁ := round2_le a
  have h₂ := lt_round2 b
  linarith

/-- A sample bookings table with one pending booking `TTT-1`, used to
exercise the webhook routes on concrete input. -/
def ServerJs.sampleBooking : ServerJs.Booking :=
  ⟨"TTT-1", "Ann", "ann@example.uk", "07000000000", "Kendal", "Windermere",
    "2026-01-01T10:00", "", "full", none, "pending", "new"⟩

/-- The table holding exactly `sampleBooking`. -/
def ServerJs.sampleState : ServerJs.Bookings :=
  fun r => if r = "TTT-1" then some ServerJs.sampleBooking else none

/-- A completed Square payment event of 14400 minor units whose note
carries the reference of `sampleBooking`. -/
def ServerJs.sampleEvent : ServerJs.Event :=
  ⟨"payment.updated", "COMPLETED", "BookingRef:TTT-1", 14400⟩

/-- A body parser recognising exactly the raw body `"rawbody"` as
`sampleEvent`, standing in for `JSON.parse` on one concrete request. -/
def ServerJs.sampleParse : String → Option ServerJs.Event :=
  fun s => if s = "rawbody" then some ServerJs.sampleEvent else none

/-- Sample mileage resolver that always fails; the fixed-fare claims never
reach it. -/
def failMiles : String → String → Except GeoFail ℚ :=
  fun _ _ => .error .geocodeFailed

/-- Sample world whose geocoder knows nothing and whose router always
fails. -/
def emptyWorld : GeoWorld := ⟨fun _ => none, fun _ _ => none⟩

/-- Sample world that geocodes every address to the same point (0, 0) and
whose routing call fails, forcing the straight-line fallback. -/
def originWorld : GeoWorld := ⟨fun _ => some (0, 0), fun _ _ => none⟩

/-- A `JsMath` instance that agrees with the real JS `Math` functions at
every point where `haversineMiles` applied to two copies of (0, 0)
evaluates them: `sin 0 = 0`, `cos 0 = 1`, `sqrt 0 = 0`, `sqrt 1 = 1` and
`atan2 0 1 = 0`. -/
def mathAtOrigin : JsMath :=
  ⟨fun _ => 0, fun _ => 1, fun q => if q = 0 then 0 else 1, fun _ _ => 0,
    3.14159⟩

/-! ### Claim C8 -/

/-- C8 counterexample: the fixed-fare branch of the `part_009` `/quote`
route (lines 467-478, cited by the claim) does not multiply by (1 + VAT):
for pickup "Kendal" and dropoff "Manchester Airport" it returns the
configured route price 120 as `price_gbp`, not the claimed
120 x (1 + VAT) = 144 — that variant applies no VAT anywhere. -/
theorem c8_counterexample :
    Part009b.quoteRoute emptyWorld (some "Kendal") (some "Manchester Airport")
      none = .fixedFare 120 ∧
    round2 ((120 : ℚ) * (1 + VAT_RATE)) = 144 ∧
    (120 : ℚ) ≠ 144 := by
  refine ⟨rfl, ?_, by norm_num⟩
  norm_num [round2, VAT_RATE]

/-- C8 (amended): for pickup "Kendal" and dropoff "Manchester Airport"
both cited resolvers take the fixed-fare path by substring match against
their zone table, skipping distance resolution entirely (the resolver and
world arguments are arbitrary).  The `part_010` resolver returns the
configured zone price 120 times (1 + VAT) = 144 with a null miles field;
the `part_009` variant instead returns the configured route price 120
unchanged — no VAT factor — and no miles field, at every pickup hour. -/
theorem c8_kendal_manchester_fixed_paths
    (rm : String → String → Except GeoFail ℚ) (w : GeoWorld)
    (hour : Option ℕ) :
    Part010.calculatePrice rm "Kendal" "Manchester Airport" =
      .ok ⟨true, none, round2 (120 * (1 + VAT_RATE))⟩ ∧
    round2 ((120 : ℚ) * (1 + VAT_RATE)) = 144 ∧
    Part009b.quoteRoute w (some "Kendal") (some "Manchester Airport") hour =
      .fixedFare 120 := by
  refine ⟨rfl, ?_, rfl⟩
  norm_num [round2, VAT_RATE]

/-! ### Claim C10 -/

/-- C10: in the `part_010` resolver, any quote whose pickup or dropoff
contains "manchester" (case-insensitively) returns the fixed Manchester
airport fare with null miles, regardless of direction and of whether an
airport is named; likewise "liverpool" and "leeds" (subject to the
earlier rows of the table not matching, since the first matching row
wins). -/
theorem c10_substring_matching_hits_any_address
    (rm : String → String → Except GeoFail ℚ) (pickup dropoff : String) :
    ((charsContain "manchester".data (jsToLower pickup) ||
        charsContain "manchester".data (jsToLower dropoff)) = true →
      Part010.calculatePrice rm pickup dropoff =
        .ok ⟨true, none, round2 (120 * (1 + VAT_RATE))⟩) ∧
    ((charsContain "manchester".data (jsToLower pickup) ||
        charsContain "manchester".data (jsToLower dropoff)) = false →
      (charsContain "liverpool".data (jsToLower pickup) ||
        charsContain "liverpool".data (jsToLower dropoff)) = true →
      Part010.calculatePrice rm pickup dropoff =
        .ok ⟨true, none, round2 (132 * (1 + VAT_RATE))⟩) ∧
    ((charsContain "manchester".data (jsToLower pickup) ||
        charsContain "manchester".data (jsToLower dropoff)) = false →
      (charsContain "liverpool".data (jsToLower pickup) ||
        charsContain "liverpool".data (jsToLower dropoff)) = false →
      (charsContain "leeds".data (jsToLower pickup) ||
        charsContain "leeds".data (jsToLower dropoff)) = true →
      Part010.calculatePrice rm pickup dropoff =
        .ok ⟨true, none, round2 (98 * (1 + VAT_RATE))⟩) := by
  refine ⟨fun h₁ => ?_, fun h₁ h₂ => ?_, fun h₁ h₂ h₃ => ?_⟩
  · simp [Part010.calculatePrice, FIXED_AIRPORT_FARES, List.find?, h₁]
  · simp [Part010.calculatePrice, FIXED_AIRPORT_FARES, List.find?, h₁, h₂]
  · simp [Part010.calculatePrice, FIXED_AIRPORT_FARES, List.find?, h₁, h₂, h₃]

/-- C10 witness: a pickup on "Manchester Road" with a rural dropoff gets
the Manchester airport fare of 144, and a dropoff of "Liverpool city
centre" (no airport named) gets the Liverpool airport fare of 158.40. -/
theorem c10_substring_matching_hits_any_address_witness :
    Part010.calculatePrice failMiles "Manchester Road" "Kendal" =
      .ok ⟨true, none, round2 (120 * (1 + VAT_RATE))⟩ ∧
    Part010.calculatePrice failMiles "Ambleside" "Liverpool city centre" =
      .ok ⟨true, none, round2 (132 * (1 + VAT_RATE))⟩ ∧
    round2 ((120 : ℚ) * (1 + VAT_RATE)) = 144 ∧
    round2 ((132 : ℚ) * (1 + VAT_RATE)) = 158.40 := by
  refine ⟨(c10_substring_matching_hits_any_address failMiles
      "Manchester Road" "Kendal").1 (by decide),
    (c10_substring_matching_hits_any_address failMiles
      "Ambleside" "Liverpool city centre").2.1 (by decide) (by decide),
    ?_, ?_⟩ <;> norm_num [round2, VAT_RATE]

/-! ### Claim C7 -/

/-- C7 counterexample: the claim that all monetary values are computed and
compared internally in integer minor units fails on the code, which works
in floating-point pounds: at the concrete resolved distance of 10.01
miles, the metered base fare compared against the minimum fare is 22.022
GBP, which is 2202.2 pence and not an integer number of minor units. -/
theorem c7_counterexample :
    Part003.localBase (10.01 : ℚ) = 22.022 ∧
    ¬ ∃ n : ℤ, Part003.localBase (10.01 : ℚ) * 100 = (n : ℚ) := by
  have hbase : Part003.localBase (10.01 : ℚ) = 22.022 := by
    unfold Part003.localBase
    rw [show (10.01 : ℚ) * LOCAL_PER_MILE = 22.022 by norm_num [LOCAL_PER_MILE]]
    rw [max_eq_right (by norm_num [MIN_FARE])]
  refine ⟨hbase, ?_⟩
  rintro ⟨n, hn⟩
  rw [hbase] at hn
  have h5 : (11011 : ℚ) = (n : ℚ) * 5 := by
    rw [show (22.022 : ℚ) * 100 = 11011 / 5 by norm_num] at hn
    field_simp at hn
    linarith
  have h6 : (11011 : ℤ) = n * 5 := by exact_mod_cast h5
  omega

/-- C7 (amended): for every metered `part_003` quote the final price is
`round2 (max (minimum fare) (miles * per-mile rate) * (1 + VAT))` with
`round2` the round-half-up-to-pence map, and that final price is a whole
number of pence; the intermediate monetary values, however, are computed
in (floating-point) pounds, not integer minor units, as the
counterexample shows. -/
theorem c7_metered_price_formula (M : JsMath) (w : GeoWorld)
    (pickup dropoff : String) (m : ℚ)
    (hp : ¬ pickup = "") (hd : ¬ dropoff = "")
    (hfix : FIXED_AIRPORT_FARES.find?
        (fun r => charsContain r.pat.data (jsToLower pickup) ||
          charsContain r.pat.data (jsToLower dropoff)) = none)
    (hm : Part003.calculateMiles M w pickup dropoff = .ok m) :
    Part003.quoteRoute M w (some pickup) (some dropoff) =
      .priced ⟨false, some (round2 m),
        round2 (Part003.localBase m * (1 + VAT_RATE))⟩ ∧
    ∃ pence : ℤ,
      round2 (Part003.localBase m * (1 + VAT_RATE)) = (pence : ℚ) / 100 := by
  constructor
  · simp [Part003.quoteRoute, jsTruthy, hp, hd, hfix, hm]
  · exact ⟨⌊Part003.localBase m * (1 + VAT_RATE) * 100 + 1/2⌋, rfl⟩

/-- C7 witness: the formula theorem applied at a journey matching no
airport rule, resolved to 10.01 miles; the resulting price is 26.43. -/
theorem c7_metered_price_formula_witness :
    Part003.quoteRoute mathAtOrigin
        ⟨fun _ => some (0, 0), fun _ _ => some 10.01⟩
        (some "Staveley") (some "Grasmere") =
      .priced ⟨false, some (round2 (10.01 : ℚ)),
        round2 (Part003.localBase (10.01 : ℚ) * (1 + VAT_RATE))⟩ ∧
    round2 (Part003.localBase (10.01 : ℚ) * (1 + VAT_RATE)) = 26.43 := by
  refine ⟨(c7_metered_price_formula mathAtOrigin
      ⟨fun _ => some (0, 0), fun _ _ => some 10.01⟩
      "Staveley" "Grasmere" 10.01 (by decide) (by decide) (by decide)
      (by norm_num [Part003.calculateMiles])).1, ?_⟩
  have hbase : Part003.localBase (10.01 : ℚ) = 22.022 := by
    unfold Part003.localBase
    rw [show (10.01 : ℚ) * LOCAL_PER_MILE = 22.022 by norm_num [LOCAL_PER_MILE]]
    rw [max_eq_right (by norm_num [MIN_FARE])]
  rw [hbase]
  norm_num [round2, VAT_RATE]

/-! ### Claim C2 -/

/-- C2 counterexample: the `part_003` server computes 144.00 for the
journey Kendal to Manchester Airport, yet a booking request for the same
journey submitting 144.01 — one penny more — is accepted and the created
booking stores the client-submitted 144.01; there is no recomputation and
no QuoteTampered rejection. -/
theorem c2_counterexample :
    Part003.quoteRoute mathAtOrigin emptyWorld
        (some "Kendal") (some "Manchester Airport") =
      .priced ⟨true, none, 144⟩ ∧
    Part003.book true "B1" "T0" (some "Kendal") (some "Manchester Airport")
        (some "Ann") (some "07000000000") none (some 144.01) =
      .success ⟨"B1", some "Kendal", some "Manchester Airport", some "Ann",
        some "07000000000", none, 144.01, "T0"⟩ [] ∧
    (144.01 : ℚ) ≠ 144 := by
  refine ⟨?_, by rfl, by norm_num⟩
  have hbase : Part003.quoteRoute mathAtOrigin emptyWorld
      (some "Kendal") (some "Manchester Airport") =
      .priced ⟨true, none, round2 (120 * (1 + VAT_RATE))⟩ := rfl
  rw [hbase, show round2 ((120 : ℚ) * (1 + VAT_RATE)) = 144 by
    norm_num [round2, VAT_RATE]]

/-- C2 (amended): the `part_003` `/book` route performs no price
recomputation and has no tamper check: every request with truthy pickup,
dropoff, name and phone and a numeric price is accepted, and the booking
it creates carries the client-submitted price verbatim. -/
theorem c2_book_stores_client_price (sg : Bool) (newId now : String)
    (pickup dropoff name phone email : Option String) (pr : ℚ)
    (hp : jsTruthy pickup = true) (hd : jsTruthy dropoff = true)
    (hn : jsTruthy name = true) (hph : jsTruthy phone = true) :
    ∃ emailedTo,
      Part003.book sg newId now pickup dropoff name phone email (some pr) =
        .success ⟨newId, pickup, dropoff, name, phone,
          (if jsTruthy email then email else none), pr, now⟩ emailedTo := by
  simp only [Part003.book, hp, hd, hn, hph, Bool.and_self, and_true]
  exact ⟨_, rfl⟩

/-- C2 witness: the amended theorem applied at a concrete well-formed
request with price 99.99. -/
theorem c2_book_stores_client_price_witness :
    ∃ emailedTo,
      Part003.book false "B2" "T1" (some "Kendal") (some "Windermere")
          (some "Bo") (some "07111111111") none (some 99.99) =
        .success ⟨"B2", some "Kendal", some "Windermere", some "Bo",
          some "07111111111",
          (if jsTruthy (none : Option String) then none else none),
          99.99, "T1"⟩ emailedTo :=
  c2_book_stores_client_price false "B2" "T1" (some "Kendal")
    (some "Windermere") (some "Bo") (some "07111111111") none 99.99
    (by decide) (by decide) (by decide) (by decide)

/-! ### Claim C5 -/

/-- C5: in the `part_009` variant the night multiplier changes the metered
fare exactly when the local pickup hour is at or after the night-start
hour 23 (in which case the fare is the rounded base times 1.5), and a
fixed-route fare is served before any time-of-day logic, so its quote is
identical at every pickup hour. -/
theorem c5_night_multiplier (miles : ℚ) (h : ℕ) (w : GeoWorld)
    (pickup dropoff : String) (f : ℚ) (hour₁ hour₂ : Option ℕ)
    (hp : ¬ pickup = "") (hd : ¬ dropoff = "")
    (hfix : Part009b.getFixedRouteFare pickup dropoff = some f) :
    ((Part009b.calculateLocalFare miles (some h) ≠
        Part009b.calculateLocalFare miles none) ↔
      Part009b.NIGHT_START_HOUR ≤ h) ∧
    (Part009b.NIGHT_START_HOUR ≤ h →
      Part009b.calculateLocalFare miles (some h) =
        round2 (max MIN_FARE (miles * LOCAL_PER_MILE) *
          Part009b.NIGHT_MULTIPLIER)) ∧
    (¬ Part009b.NIGHT_START_HOUR ≤ h →
      Part009b.calculateLocalFare miles (some h) =
        Part009b.calculateLocalFare miles none) ∧
    Part009b.quoteRoute w (some pickup) (some dropoff) hour₁ =
      .fixedFare f ∧
    Part009b.quoteRoute w (some pickup) (some dropoff) hour₁ =
      Part009b.quoteRoute w (some pickup) (some dropoff) hour₂ := by
  have hb : (4.2 : ℚ) ≤ max MIN_FARE (miles * LOCAL_PER_MILE) := by
    calc (4.2 : ℚ) = MIN_FARE := by norm_num [MIN_FARE]
    _ ≤ _ := le_max_left _ _
  have hkey : round2 (max MIN_FARE (miles * LOCAL_PER_MILE)) <
      round2 (max MIN_FARE (miles * LOCAL_PER_MILE) *
        Part009b.NIGHT_MULTIPLIER) := by
    apply round2_lt_round2
    simp only [Part009b.NIGHT_MULTIPLIER]
    linarith
  have hnight : ∀ hh : ℕ, Part009b.NIGHT_START_HOUR ≤ hh →
      Part009b.calculateLocalFare miles (some hh) =
        round2 (max MIN_FARE (miles * LOCAL_PER_MILE) *
          Part009b.NIGHT_MULTIPLIER) := by
    intro hh hhh
    simp [Part009b.calculateLocalFare, hhh]
  have hday : ∀ hh : ℕ, ¬ Part009b.NIGHT_START_HOUR ≤ hh →
      Part009b.calculateLocalFare miles (some hh) =
        Part009b.calculateLocalFare miles none := by
    intro hh hhh
    simp [Part009b.calculateLocalFare, hhh]
  have hnone : Part009b.calculateLocalFare miles none =
      round2 (max MIN_FARE (miles * LOCAL_PER_MILE)) := rfl
  have hquote : ∀ hh : Option ℕ,
      Part009b.quoteRoute w (some pickup) (some dropoff) hh =
        .fixedFare f := by
    intro hh
    simp [Part009b.quoteRoute, jsTruthy, hp, hd, hfix]
  refine ⟨⟨fun hne => ?_, fun hge => ?_⟩, hnight h, hday h, hquote hour₁,
    (hquote hour₁).trans (hquote hour₂).symm⟩
  · by_contra hlt
    exact hne (hday h hlt)
  · rw [hnight h hge, hnone]
    exact ne_of_gt hkey

/-- C5 witness: at 10 miles, a 23:00 pickup is priced differently from an
untimed one while a 22:00 pickup is not (the 22:59 versus 23:00 boundary),
and the fixed Kendal to Manchester Airport quote of 120 is the same at
hour 23 as at hour 22. -/
theorem c5_night_multiplier_witness :
    ((Part009b.calculateLocalFare 10 (some 23) ≠
        Part009b.calculateLocalFare 10 none) ↔
      Part009b.NIGHT_START_HOUR ≤ 23) ∧
    ¬ (Part009b.calculateLocalFare 10 (some 22) ≠
        Part009b.calculateLocalFare 10 none) ∧
    Part009b.quoteRoute emptyWorld (some "Kendal") (some "Manchester Airport")
        (some 23) = .fixedFare 120 ∧
    Part009b.quoteRoute emptyWorld (some "Kendal") (some "Manchester Airport")
        (some 23) =
      Part009b.quoteRoute emptyWorld (some "Kendal") (some "Manchester Airport")
        (some 22) := by
  have h23 := c5_night_multiplier 10 23 emptyWorld "Kendal"
    "Manchester Airport" 120 (some 23) (some 22) (by decide) (by decide)
    (by decide)
  have h22 := c5_night_multiplier 10 22 emptyWorld "Kendal"
    "Manchester Airport" 120 (some 23) (some 22) (by decide) (by decide)
    (by decide)
  exact ⟨h23.1, fun hne => absurd (h22.1.mp hne) (by decide),
    h23.2.2.2.1, h23.2.2.2.2⟩

/-! ### Claim C6 -/

/-- C6 counterexample: in the `part_007` variant (also the second
document of `part_002` and `part_011`), a routing failure does not fall
back to great-circle distance times 1.25: with both addresses geocoding
to the same point (0, 0) and the router down, `part_007` returns the
hard-coded 10 miles, while the great-circle distance of the geocoded
points — the `haversineMiles` the claim describes, evaluated with math
functions that agree with the real ones at every point used — is 0, so
the claimed fallback value is 0 times 1.25 = 0, not 10. -/
theorem c6_counterexample :
    Part007.calculateMiles originWorld "Kendal Town Hall" "Kendal Town Hall" =
      .ok 10 ∧
    Part003.haversineMiles mathAtOrigin 0 0 0 0 * 1.25 = 0 ∧
    (10 : ℚ) ≠ 0 := by
  refine ⟨rfl, ?_, by norm_num⟩
  simp only [Part003.haversineMiles, mathAtOrigin]
  norm_num

/-- C6 (amended): the `part_003` (and `part_010`) resolver follows the
three-stage fallback: a successful routing call with a positive mileage
wins; a failed routing call falls back to the haversine great-circle
distance of the two geocoded points inflated by 1.25; and a geocoding
failure of either address fails the whole resolution with an error (no
price).  The `part_007` / `part_002` / `part_011` variants instead
replace the failed routing call by a hard-coded 10 miles, as the
counterexample shows. -/
theorem c6_three_stage_fallback (M : JsMath) (w : GeoWorld)
    (pickup dropoff : String) (f t : ℚ × ℚ) (m : ℚ) :
    (w.geocode pickup = some f → w.geocode dropoff = some t →
      w.route f t = some m → 0 < m →
      Part003.calculateMiles M w pickup dropoff = .ok m) ∧
    (w.geocode pickup = some f → w.geocode dropoff = some t →
      w.route f t = none →
      Part003.calculateMiles M w pickup dropoff =
        .ok (Part003.haversineMiles M f.1 f.2 t.1 t.2 * 1.25)) ∧
    (w.geocode pickup = none →
      Part003.calculateMiles M w pickup dropoff = .error .geocodeFailed) ∧
    (w.geocode pickup = some f → w.geocode dropoff = none →
      Part003.calculateMiles M w pickup dropoff = .error .geocodeFailed) := by
  refine ⟨fun h₁ h₂ h₃ h₄ => ?_, fun h₁ h₂ h₃ => ?_, fun h₁ => ?_,
    fun h₁ h₂ => ?_⟩
  · simp [Part003.calculateMiles, h₁, h₂, h₃, h₄]
  · simp [Part003.calculateMiles, h₁, h₂, h₃]
  · simp [Part003.calculateMiles, h₁]
  · simp [Part003.calculateMiles, h₁, h₂]

/-- C6 witness: the fallback theorem applied to a world in which both
addresses geocode to (0, 0) and routing fails, yielding the inflated
straight-line distance, and to a world in which the pickup does not
geocode at all, yielding the error. -/
theorem c6_three_stage_fallback_witness :
    Part003.calculateMiles mathAtOrigin originWorld "Staveley" "Grasmere" =
      .ok (Part003.haversineMiles mathAtOrigin 0 0 0 0 * 1.25) ∧
    Part003.calculateMiles mathAtOrigin emptyWorld "Staveley" "Grasmere" =
      .error .geocodeFailed := by
  refine ⟨(c6_three_stage_fallback mathAtOrigin originWorld "Staveley"
      "Grasmere" (0, 0) (0, 0) 0).2.1 rfl rfl rfl, ?_⟩
  exact (c6_three_stage_fallback mathAtOrigin emptyWorld "Staveley"
    "Grasmere" (0, 0) (0, 0) 0).2.2.1 rfl

/-! ### Claims C9 and C3 -/

/-- One delivery of a completed event for a booking found under its
reference: the booking is marked paid with the event amount, one email
batch goes out, dispatch is attempted exactly when TaxiCaller is
configured (adding the dispatched status only when the attempt succeeds),
and the route acknowledges with 200. -/
theorem ServerJs.squareWebhook_run (cfg ok : Bool) (st : ServerJs.Bookings)
    (ev : ServerJs.Event) (ref : String) (b : ServerJs.Booking)
    (h₁ : jsStartsWith ev.type "payment." = true)
    (h₂ : ev.paymentStatus = "COMPLETED")
    (h₃ : ServerJs.parseBookingRef ev.note = some ref)
    (h₄ : st ref = some b) (h₅ : b.booking_ref = ref) :
    ServerJs.squareWebhook cfg ok st ev =
      ⟨fun r => if r = ref then
          some (if cfg && ok then
              { b with
                payment_status := "paid",
                amount_paid := some ((ev.amount : ℚ) / 100),
                status := "dispatched" }
            else
              { b with
                payment_status := "paid",
                amount_paid := some ((ev.amount : ℚ) / 100) })
        else st r,
        200, [(ref, (ev.amount : ℚ) / 100)], cond cfg 1 0⟩ := by
  subst h₅
  cases cfg
  · cases ok <;> simp [ServerJs.squareWebhook, h₁, h₂, h₃, h₄]
  · cases ok
    · simp [ServerJs.squareWebhook, h₁, h₂, h₃, h₄]
    · simp only [ServerJs.squareWebhook, h₁, h₂, h₃, h₄, Bool.not_true,
        Bool.false_eq_true, if_false, Bool.and_self, if_true]
      refine congrArg (fun s => ServerJs.WebhookRes.mk s 200 _ 1) ?_
      funext r
      by_cases hr : r = b.booking_ref <;> simp [hr]

/-- C9: once a completed payment event has marked the booking paid, a
failure of the TaxiCaller dispatch call (configured, `dispatchOk =
false`) does not roll the paid status back: the stored booking keeps
`payment_status = paid` with the paid amount, its `status` column is left
exactly as it was (the dispatched transition is skipped), the dispatch
attempt is recorded, and the webhook is still acknowledged with 200. -/
theorem c9_dispatch_failure_preserves_paid (st : ServerJs.Bookings)
    (ev : ServerJs.Event) (ref : String) (b : ServerJs.Booking)
    (h₁ : jsStartsWith ev.type "payment." = true)
    (h₂ : ev.paymentStatus = "COMPLETED")
    (h₃ : ServerJs.parseBookingRef ev.note = some ref)
    (h₄ : st ref = some b) (h₅ : b.booking_ref = ref) :
    (ServerJs.squareWebhook true false st ev).resp = 200 ∧
    (ServerJs.squareWebhook true false st ev).state ref =
      some { b with
              payment_status := "paid",
              amount_paid := some ((ev.amount : ℚ) / 100) } ∧
    ((ServerJs.squareWebhook true false st ev).state ref).map
        (fun x => x.status) = some b.status ∧
    (ServerJs.squareWebhook true false st ev).dispatchCalls = 1 := by
  rw [ServerJs.squareWebhook_run true false st ev ref b h₁ h₂ h₃ h₄ h₅]
  simp

/-- C9 witness: the theorem applied to the sample pending booking and the
sample completed event of 14400 minor units. -/
theorem c9_dispatch_failure_preserves_paid_witness :
    (ServerJs.squareWebhook true false ServerJs.sampleState
        ServerJs.sampleEvent).resp = 200 ∧
    (ServerJs.squareWebhook true false ServerJs.sampleState
        ServerJs.sampleEvent).state "TTT-1" =
      some { ServerJs.sampleBooking with
              payment_status := "paid",
              amount_paid := some ((ServerJs.sampleEvent.amount : ℚ) / 100) } ∧
    ((ServerJs.squareWebhook true false ServerJs.sampleState
        ServerJs.sampleEvent).state "TTT-1").map (fun x => x.status) =
      some ServerJs.sampleBooking.status ∧
    (ServerJs.squareWebhook true false ServerJs.sampleState
        ServerJs.sampleEvent).dispatchCalls = 1 :=
  c9_dispatch_failure_preserves_paid ServerJs.sampleState
    ServerJs.sampleEvent "TTT-1" ServerJs.sampleBooking
    (by decide) (by decide) (by decide) (by decide) (by decide)

/-- C3 counterexample: delivering the same completed event twice is not a
no-op: after the first delivery has already marked `TTT-1` paid, the
second delivery emits the very same confirmation-email batch again, so
the downstream notification is duplicated (the claim requires no
duplicate notification trigger). -/
theorem c3_counterexample :
    (ServerJs.squareWebhook false false ServerJs.sampleState
        ServerJs.sampleEvent).emails =
      [("TTT-1", ((14400 : ℤ) : ℚ) / 100)] ∧
    ((ServerJs.squareWebhook false false ServerJs.sampleState
        ServerJs.sampleEvent).state "TTT-1").map (fun x => x.payment_status) =
      some "paid" ∧
    (ServerJs.squareWebhook false false
        (ServerJs.squareWebhook false false ServerJs.sampleState
          ServerJs.sampleEvent).state ServerJs.sampleEvent).emails =
      [("TTT-1", ((14400 : ℤ) : ℚ) / 100)] ∧
    ((14400 : ℤ) : ℚ) / 100 = 144 ∧
    (ServerJs.squareWebhook false false
        (ServerJs.squareWebhook false false ServerJs.sampleState
          ServerJs.sampleEvent).state ServerJs.sampleEvent).resp = 200 := by
  refine ⟨rfl, rfl, rfl, by norm_num, rfl⟩

/-- C3 (amended): re-delivering the same completed event leaves the
bookings table unchanged in value — the second run rewrites the same paid
fields — and is acknowledged again, but the handler has no already-paid
guard: the second delivery emits the same (non-empty) email batch and the
same number of dispatch attempts as the first, so notifications and
dispatch triggers are duplicated rather than suppressed. -/
theorem c3_second_delivery_repeats_notification (cfg ok : Bool)
    (st : ServerJs.Bookings) (ev : ServerJs.Event) (ref : String)
    (b : ServerJs.Booking)
    (h₁ : jsStartsWith ev.type "payment." = true)
    (h₂ : ev.paymentStatus = "COMPLETED")
    (h₃ : ServerJs.parseBookingRef ev.note = some ref)
    (h₄ : st ref = some b) (h₅ : b.booking_ref = ref) :
    (ServerJs.squareWebhook cfg ok
        (ServerJs.squareWebhook cfg ok st ev).state ev).state =
      (ServerJs.squareWebhook cfg ok st ev).state ∧
    (ServerJs.squareWebhook cfg ok
        (ServerJs.squareWebhook cfg ok st ev).state ev).emails =
      (ServerJs.squareWebhook cfg ok st ev).emails ∧
    (ServerJs.squareWebhook cfg ok st ev).emails =
      [(ref, (ev.amount : ℚ) / 100)] ∧
    (ServerJs.squareWebhook cfg ok
        (ServerJs.squareWebhook cfg ok st ev).state ev).dispatchCalls =
      (ServerJs.squareWebhook cfg ok st ev).dispatchCalls ∧
    (ServerJs.squareWebhook cfg ok
        (ServerJs.squareWebhook cfg ok st ev).state ev).resp = 200 := by
  subst h₅
  have hrun1 := ServerJs.squareWebhook_run cfg ok st ev b.booking_ref b
    h₁ h₂ h₃ h₄ rfl
  cases hco : (cfg && ok) with
  | false =>
    rw [hco] at hrun1
    simp only [Bool.false_eq_true, if_false] at hrun1
    have h₄2 : (ServerJs.squareWebhook cfg ok st ev).state b.booking_ref =
        some { b with
                payment_status := "paid",
                amount_paid := some ((ev.amount : ℚ) / 100) } := by
      rw [hrun1]
      simp
    have hrun2 := ServerJs.squareWebhook_run cfg ok
      (ServerJs.squareWebhook cfg ok st ev).state ev b.booking_ref
      { b with
        payment_status := "paid",
        amount_paid := some ((ev.amount : ℚ) / 100) }
      h₁ h₂ h₃ h₄2 rfl
    rw [hco] at hrun2
    simp only [Bool.false_eq_true, if_false] at hrun2
    refine ⟨?_, ?_, ?_, ?_, ?_⟩
    · rw [hrun2, hrun1]
      funext r
      by_cases hr : r = b.booking_ref <;> simp [hr]
    · rw [hrun2, hrun1]
    · rw [hrun1]
    · rw [hrun2, hrun1]
    · rw [hrun2]
  | true =>
    rw [hco] at hrun1
    simp only [if_true] at hrun1
    have h₄2 : (ServerJs.squareWebhook cfg ok st ev).state b.booking_ref =
        some { b with
                payment_status := "paid",
                amount_paid := some ((ev.amount : ℚ) / 100),
                status := "dispatched" } := by
      rw [hrun1]
      simp
    have hrun2 := ServerJs.squareWebhook_run cfg ok
      (ServerJs.squareWebhook cfg ok st ev).state ev b.booking_ref
      { b with
        payment_status := "paid",
        amount_paid := some ((ev.amount : ℚ) / 100),
        status := "dispatched" }
      h₁ h₂ h₃ h₄2 rfl
    rw [hco] at hrun2
    simp only [if_true] at hrun2
    refine ⟨?_, ?_, ?_, ?_, ?_⟩
    · rw [hrun2, hrun1]
      funext r
      by_cases hr : r = b.booking_ref <;> simp [hr]
    · rw [hrun2, hrun1]
    · rw [hrun1]
    · rw [hrun2, hrun1]
    · rw [hrun2]

/-- C3 amended-theorem witness: the re-delivery theorem applied to the
sample pending booking and sample completed event. -/
theorem c3_second_delivery_repeats_notification_witness :
    (ServerJs.squareWebhook false false
        (ServerJs.squareWebhook false false ServerJs.sampleState
          ServerJs.sampleEvent).state ServerJs.sampleEvent).state =
      (ServerJs.squareWebhook false false ServerJs.sampleState
        ServerJs.sampleEvent).state ∧
    (ServerJs.squareWebhook false false
        (ServerJs.squareWebhook false false ServerJs.sampleState
          ServerJs.sampleEvent).state ServerJs.sampleEvent).emails =
      (ServerJs.squareWebhook false false ServerJs.sampleState
        ServerJs.sampleEvent).emails ∧
    (ServerJs.squareWebhook false false ServerJs.sampleState
        ServerJs.sampleEvent).emails =
      [("TTT-1", (ServerJs.sampleEvent.amount : ℚ) / 100)] ∧
    (ServerJs.squareWebhook false false
        (ServerJs.squareWebhook false false ServerJs.sampleState
          ServerJs.sampleEvent).state ServerJs.sampleEvent).dispatchCalls =
      (ServerJs.squareWebhook false false ServerJs.sampleState
        ServerJs.sampleEvent).dispatchCalls ∧
    (ServerJs.squareWebhook false false
        (ServerJs.squareWebhook false false ServerJs.sampleState
          ServerJs.sampleEvent).state ServerJs.sampleEvent).resp = 200 :=
  c3_second_delivery_repeats_notification false false ServerJs.sampleState
    ServerJs.sampleEvent "TTT-1" ServerJs.sampleBooking
    (by decide) (by decide) (by decide) (by decide) (by decide)

/-! ### Claim C1 -/

/-- A sample dispatch-bot database: bookings `b1` and `b2` both reserve
the identical window (600 to 660 minutes) and driver `d1` exists with no
assignments yet. -/
def SqliteBot.sampleDb : SqliteBot.Db :=
  ⟨fun r =>
      if r = "b1" then some ⟨"b1", "NEW", 600, 60⟩
      else if r = "b2" then some ⟨"b2", "NEW", 600, 60⟩
      else none,
    fun r => r = "d1",
    fun _ => none⟩

/-- C1 counterexample: assigning driver `d1` to booking `b1` and then to
booking `b2` both succeed although the two bookings occupy the identical
time window [600, 660): the committed assignments give one driver two
bookings whose windows intersect, so driver assignment does not prevent
overlapping windows. -/
theorem c1_counterexample :
    ((SqliteBot.assignDriver SqliteBot.sampleDb (some "b1") (some "d1")
        "t1").2 = 200) ∧
    ((SqliteBot.assignDriver
        (SqliteBot.assignDriver SqliteBot.sampleDb (some "b1") (some "d1")
          "t1").1 (some "b2") (some "d1") "t2").2 = 200) ∧
    (((SqliteBot.assignDriver
        (SqliteBot.assignDriver SqliteBot.sampleDb (some "b1") (some "d1")
          "t1").1 (some "b2") (some "d1") "t2").1.assignments "b1").map
      (fun a => a.driver_id) = some "d1") ∧
    (((SqliteBot.assignDriver
        (SqliteBot.assignDriver SqliteBot.sampleDb (some "b1") (some "d1")
          "t1").1 (some "b2") (some "d1") "t2").1.assignments "b2").map
      (fun a => a.driver_id) = some "d1") ∧
    (((SqliteBot.assignDriver
        (SqliteBot.assignDriver SqliteBot.sampleDb (some "b1") (some "d1")
          "t1").1 (some "b2") (some "d1") "t2").1.bookings "b1").map
      SqliteBot.window = some (600, 660)) ∧
    (((SqliteBot.assignDriver
        (SqliteBot.assignDriver SqliteBot.sampleDb (some "b1") (some "d1")
          "t1").1 (some "b2") (some "d1") "t2").1.bookings "b2").map
      SqliteBot.window = some (600, 660)) ∧
    SqliteBot.overlaps (600, 660) (600, 660) := by
  exact ⟨rfl, rfl, rfl, rfl, rfl, rfl, by decide⟩

/-- C1 (amended): `POST /admin/assign-driver` checks only that the
booking and the driver rows exist: it upserts the assignment keyed by
`booking_id` — so a booking carries at most one driver and reassignment
overwrites — marks the booking `DRIVER_ASSIGNED`, and leaves every other
row untouched; it performs no comparison of reserved time windows, so the
same driver can be committed to two bookings with intersecting (even
identical) windows, as the counterexample shows. -/
theorem c1_assign_driver_keyed_upsert (db : SqliteBot.Db)
    (bid did now : String) (bk : SqliteBot.BookingRow)
    (hbid : ¬ bid = "") (hdid : ¬ did = "")
    (hb : db.bookings bid = some bk) (hd : db.drivers did = true) :
    (SqliteBot.assignDriver db (some bid) (some did) now).2 = 200 ∧
    (SqliteBot.assignDriver db (some bid) (some did) now).1.assignments bid =
      some ⟨did, now⟩ ∧
    (∀ x, x ≠ bid →
      (SqliteBot.assignDriver db (some bid) (some did) now).1.assignments x =
        db.assignments x) ∧
    (SqliteBot.assignDriver db (some bid) (some did) now).1.bookings bid =
      some { bk with status := "DRIVER_ASSIGNED" } ∧
    (∀ x, x ≠ bid →
      (SqliteBot.assignDriver db (some bid) (some did) now).1.bookings x =
        db.bookings x) ∧
    (SqliteBot.assignDriver db (some bid) (some did) now).1.drivers =
      db.drivers := by
  have hrun : SqliteBot.assignDriver db (some bid) (some did) now =
      ({ bookings := fun r =>
           if r = bid then
             (db.bookings r).map (fun b => { b with status := "DRIVER_ASSIGNED" })
           else db.bookings r,
         drivers := db.drivers,
         assignments := fun r =>
           if r = bid then some ⟨did, now⟩ else db.assignments r }, 200) := by
    simp [SqliteBot.assignDriver, jsTruthy, hbid, hdid, hb, hd]
  rw [hrun]
  refine ⟨rfl, by simp, fun x hx => by simp [hx], by simp [hb], fun x hx => by simp [hx], rfl⟩

/-- C1 amended-theorem witness: the upsert theorem applied to the sample
database, booking `b1` and driver `d1`. -/
theorem c1_assign_driver_keyed_upsert_witness :
    (SqliteBot.assignDriver SqliteBot.sampleDb (some "b1") (some "d1")
        "t1").2 = 200 ∧
    (SqliteBot.assignDriver SqliteBot.sampleDb (some "b1") (some "d1")
        "t1").1.assignments "b1" = some ⟨"d1", "t1"⟩ ∧
    (∀ x, x ≠ "b1" →
      (SqliteBot.assignDriver SqliteBot.sampleDb (some "b1") (some "d1")
          "t1").1.assignments x = SqliteBot.sampleDb.assignments x) ∧
    (SqliteBot.assignDriver SqliteBot.sampleDb (some "b1") (some "d1")
        "t1").1.bookings "b1" =
      some { (⟨"b1", "NEW", 600, 60⟩ : SqliteBot.BookingRow) with
              status := "DRIVER_ASSIGNED" } ∧
    (∀ x, x ≠ "b1" →
      (SqliteBot.assignDriver SqliteBot.sampleDb (some "b1") (some "d1")
          "t1").1.bookings x = SqliteBot.sampleDb.bookings x) ∧
    (SqliteBot.assignDriver SqliteBot.sampleDb (some "b1") (some "d1")
        "t1").1.drivers = SqliteBot.sampleDb.drivers :=
  c1_assign_driver_keyed_upsert SqliteBot.sampleDb "b1" "d1" "t1"
    ⟨"b1", "NEW", 600, 60⟩ (by decide) (by decide) (by decide) (by decide)

/-! ### Claim C4 -/

/-- C4 (amended): the `part_002` webhook verifies the keyed HMAC over the
exact raw bytes before anything else: whenever the signature header is
missing or does not equal the HMAC of the raw body, the route answers
HTTP 401 with the bookings table returned untouched and no emails sent —
nothing further runs.  The `server.js` webhook, by contrast, performs no
signature verification at all, as the counterexample shows. -/
theorem c4_webhook002_verifies_before_processing
    (hmacSha1 : String → String → String) (parse : String → Option Part002.Event)
    (key : String) (st : Part002.Db) (rawBody : String)
    (signature : Option String)
    (hbad : ∀ sig, signature = some sig → ¬ hmacSha1 key rawBody = sig) :
    Part002.squareWebhook hmacSha1 parse key st rawBody signature =
      ⟨st, 401, []⟩ := by
  match hsig : signature with
  | none => rfl
  | some sig =>
    have hne := hbad sig rfl
    simp [Part002.squareWebhook, Part002.verifySquareSignature, hne]

/-- C4 amended-theorem witness: with the HMAC primitive instantiated as
key-prefix concatenation, a request signed "forged" (which is not the
HMAC of the raw body) is rejected with 401 and an untouched table. -/
theorem c4_webhook002_verifies_before_processing_witness :
    Part002.squareWebhook (fun k m => k ++ m) (fun _ => none) "KEY"
      (fun _ => none) "rawbody" (some "forged") =
      ⟨(fun _ => none), 401, []⟩ :=
  c4_webhook002_verifies_before_processing (fun k m => k ++ m)
    (fun _ => none) "KEY" (fun _ => none) "rawbody" (some "forged")
    (fun sig hs => by cases hs; decide)

/-- C4 counterexample: the `server.js` webhook route processes a
completed event without any signature verification: a request whose
signature header is the arbitrary string "forged" — verifiable against no
key — is fully processed, flipping the sample booking from pending to
paid and answering 200, where the claim requires 401 and no state
change. -/
theorem c4_counterexample :
    ((ServerJs.sampleState "TTT-1").map (fun x => x.payment_status) =
      some "pending") ∧
    ((ServerJs.squareWebhookRaw false false ServerJs.sampleParse
        ServerJs.sampleState ⟨"rawbody", some "forged"⟩).resp = 200) ∧
    (((ServerJs.squareWebhookRaw false false ServerJs.sampleParse
        ServerJs.sampleState ⟨"rawbody", some "forged"⟩).state "TTT-1").map
      (fun x => x.payment_status) = some "paid") := by
  exact ⟨rfl, rfl, rfl⟩

end TTTaxis
